import Mathlib

/-!
Verification development for the Blender Auto-Screenshot add-on
(src/AutoScreenshots.py), a timelapse screenshot plugin.  The add-on's
operators and helpers are shallowly embedded below: host calls
(`bpy.ops.render.opengl`, file-system probes, the timer) are oracles passed
in as explicit parameters, global mutable state is threaded explicitly.
-/

namespace AutoScreenshots

/-- The eight global render-configuration fields that `_capture_jpeg` and
`_quick_viewport_fingerprint` save into the `old` dict, overwrite, and
restore: `scene.render.filepath`, `image_settings.file_format`,
`image_settings.color_mode`, `image_settings.quality`,
`render.resolution_x`, `render.resolution_y`,
`render.resolution_percentage`, `render.use_file_extension`. -/
structure RenderSettings where
  filepath : String
  file_format : String
  color_mode : String
  quality : Nat
  resolution_x : Nat
  resolution_y : Nat
  resolution_percentage : Nat
  use_file_extension : Bool
deriving DecidableEq, Repr

/-- Embedding of `_capture_jpeg(path, width, height, quality)`.
Host behaviour is supplied by oracles: `viewportFound` is whether
`_find_viewport_region` returns a window (if not, the function returns
`False` before touching any render setting); `openglRaises` is whether
`bpy.ops.render.opengl` raises inside the `try` (caught, `ok = False`);
`fileExists` is the final `os.path.exists(path)` probe.  Returns the
(`ok and os.path.exists(path)`) result and the render settings as left
behind by the call. -/
def capture_jpeg (rs : RenderSettings) (path : String)
    (width height quality : Nat)
    (viewportFound openglRaises fileExists : Bool) :
    Bool × RenderSettings :=
  if viewportFound = false then (false, rs)
  else
    let old := rs
    let rs1 : RenderSettings :=
      { filepath := path
        file_format := "JPEG"
        color_mode := "RGB"
        quality := quality
        resolution_x := width
        resolution_y := height
        resolution_percentage := 100
        use_file_extension := true }
    let ok := !openglRaises
    let rs2 : RenderSettings :=
      { rs1 with
        filepath := old.filepath
        file_format := old.file_format
        color_mode := old.color_mode
        quality := old.quality
        resolution_x := old.resolution_x
        resolution_y := old.resolution_y
        resolution_percentage := old.resolution_percentage
        use_file_extension := old.use_file_extension }
    (ok && fileExists, rs2)

/-- Embedding of `_quick_viewport_fingerprint()`.  Oracles as in
`capture_jpeg`, plus: `tempExists` is the `os.path.exists(temp_path)`
probe after a successful render, `readOk` whether opening/reading the
temp file succeeds (a failure is caught and yields `fp = None`), and
`hash` the md5 digest of its bytes when read.  Returns the fingerprint
(`None` on any failure) and the render settings left behind. -/
def quick_viewport_fingerprint (rs : RenderSettings)
    (viewportFound openglRaises tempExists readOk : Bool) (hash : Nat) :
    Option Nat × RenderSettings :=
  if viewportFound = false then (none, rs)
  else
    let old := rs
    let rs1 : RenderSettings :=
      { filepath := "tl_fingerprint.jpg"
        file_format := "JPEG"
        color_mode := "RGB"
        quality := 70
        resolution_x := 128
        resolution_y := 72
        resolution_percentage := 100
        use_file_extension := true }
    let fp : Option Nat :=
      if openglRaises then none
      else if tempExists then (if readOk then some hash else none)
      else none
    let rs2 : RenderSettings :=
      { rs1 with
        filepath := old.filepath
        file_format := old.file_format
        color_mode := old.color_mode
        quality := old.quality
        resolution_x := old.resolution_x
        resolution_y := old.resolution_y
        resolution_percentage := old.resolution_percentage
        use_file_extension := old.use_file_extension }
    (fp, rs2)

/-! ## File system and state of the operators -/

/-- The file system modelled as a map from paths to file contents
(contents abstracted to `Nat`, standing for the image bytes). -/
def FS : Type := String → Option Nat

/-- Write (or, with `none`, remove) the file at path `p`. -/
def fsWrite (fs : FS) (p : String) (c : Option Nat) : FS :=
  fun q => if q = p then c else fs q

/-- Embedding of the relocation in `modal` lines 336-340:
`os.replace(temp_path, final_path)` inside a bare `try`; on exception
(`replaceOk = false`, e.g. a cross-filesystem rename)
`shutil.copy2(temp_path, final_path)` followed by `os.remove(temp_path)`.
The fallback's own host calls are the success case of `copy2`/`remove`. -/
def relocate (fs : FS) (temp final : String) (replaceOk : Bool) : FS :=
  if replaceOk then
    fsWrite (fsWrite fs final (fs temp)) temp none
  else
    let copied := fsWrite fs final (fs temp)
    fsWrite copied temp none

/-- Return values of Blender operator methods used by the add-on. -/
inductive OpResult where
  | CANCELLED : OpResult
  | FINISHED : OpResult
  | RUNNING_MODAL : OpResult
  | PASS_THROUGH : OpResult
deriving DecidableEq, Repr

/-- Process-wide state of the add-on: the module globals `_RUNNING`,
`_TIMER`, `_LAST_FP`, together with the window manager's set of
registered timers (handles abstracted to `Nat`, `nextHandle` supplying a
fresh one) and the file system. -/
structure AddonState where
  running : Bool
  timer : Option Nat
  registered : List Nat
  nextHandle : Nat
  lastFP : Option Nat
  fs : FS

/-- Embedding of `VIEW3D_OT_timelapse_start.execute`.  `hasFilepath` is
whether `bpy.data.filepath` is non-empty (the .blend file has been
saved); `testOk` is the result of `_test_capture()` (its scratch file
lives in `bpy.app.tempdir`, outside the modelled output file system).
Returns the operator result, whether `self.report({ERROR}, ...)` was
called, and the new state.  On success it clears `_LAST_FP`, sets
`_RUNNING`, and registers a fresh timer via `event_timer_add`. -/
def startExec (s : AddonState) (hasFilepath testOk : Bool) :
    OpResult × Bool × AddonState :=
  if hasFilepath = false then (.CANCELLED, true, s)
  else if s.running = true then (.CANCELLED, false, s)
  else if testOk = false then (.CANCELLED, true, s)
  else
    (.RUNNING_MODAL, false,
      { s with
        lastFP := none
        running := true
        timer := some s.nextHandle
        registered := s.nextHandle :: s.registered
        nextHandle := s.nextHandle + 1 })

/-- Embedding of `VIEW3D_OT_timelapse_stop.execute`: removes the timer
recorded in `_TIMER` (if any) from the window manager and clears
`_RUNNING`.  Note the source leaves `_TIMER` itself set. -/
def stopExec (s : AddonState) : OpResult × AddonState :=
  (.FINISHED,
    { s with
      registered :=
        match s.timer with
        | some h => s.registered.erase h
        | none => s.registered
      running := false })

/-- Per-tick oracle inputs of `modal`: `isTimer` is whether
`event.type == "TIMER"`; `fingerprint` the result of
`_quick_viewport_fingerprint()`; `captureResult` summarises
`ok = _capture_jpeg(...)` together with `os.path.exists(temp_path)`
(`some c` when both hold, with `c` the written image bytes, `none`
otherwise); `replaceOk` whether `os.replace` succeeds. -/
structure TickOracle where
  isTimer : Bool
  fingerprint : Option Nat
  captureResult : Option Nat
  replaceOk : Bool

/-- Embedding of `VIEW3D_OT_timelapse_start.modal` (lines 309-342) for
one event.  `skip` is `p.skip_unchanged`; `temp` and `final` the
`temp_path` and `final_path` of this tick.  Returns the operator result,
the new state, and whether the full-resolution `_capture_jpeg` call was
made on this tick. -/
def modalTick (skip : Bool) (s : AddonState) (o : TickOracle)
    (temp final : String) : OpResult × AddonState × Bool :=
  if s.running = false then (.CANCELLED, s, false)
  else if o.isTimer = false then (.PASS_THROUGH, s, false)
  else if skip = true ∧ o.fingerprint.isSome ∧ o.fingerprint = s.lastFP then
    (.PASS_THROUGH, s, false)
  else
    let s1 := if skip then { s with lastFP := o.fingerprint } else s
    match o.captureResult with
    | none => (.PASS_THROUGH, s1, true)
    | some c =>
        (.PASS_THROUGH,
          { s1 with fs := relocate (fsWrite s1.fs temp (some c)) temp final o.replaceOk },
          true)

/-- Embedding of `VIEW3D_OT_timelapse_start.cancel`: removes the timer
recorded in `_TIMER` (if any) and clears `_RUNNING`. -/
def cancelExec (s : AddonState) : AddonState :=
  { s with
    registered :=
      match s.timer with
      | some h => s.registered.erase h
      | none => s.registered
    running := false }

/-! ## MP4 assembly -/

/-- Embedding of `_gather(directory, prefix)`: if the resolved directory
does not exist the file list is empty; otherwise the directory listing
is filtered to names starting with the prefix and ending (lowercased) in
".jpg", and sorted.  `dirExists` is the `os.path.exists` probe and
`listing` the `os.listdir` result. -/
def gather (dirExists : Bool) (listing : List String) (pre : String) :
    List String :=
  if dirExists = false then []
  else
    (listing.filter (fun f => f.startsWith pre && f.toLower.endsWith ".jpg")).mergeSort
      (fun a b => decide (a ≤ b))

/-- Outcome of `_make_mp4`: the returned boolean, whether
`report({ERROR}, ...)` was called, and the output video file produced
(by path), `none` when nothing was written. -/
structure Mp4Outcome where
  ok : Bool
  errorReported : Bool
  output : Option String
deriving DecidableEq, Repr

/-- Embedding of `_make_mp4(directory, prefix, ...)`.  When `_gather`
returns no files it reports "No JPG files found." and returns `False`
before creating the scene or touching the sequencer, so no output file
is written.  Otherwise the host's sequencer and FFMPEG encoder (opaque
collaborators) render the strip to `{prefix}_{timestamp}.mp4` in the
directory; `stamp` is the `_timestamp()` value of this invocation. -/
def make_mp4 (dirExists : Bool) (listing : List String) (pre : String)
    (stamp : String) : Mp4Outcome :=
  let files := gather dirExists listing pre
  if files = [] then ⟨false, true, none⟩
  else ⟨true, false, some (pre ++ "_" ++ stamp ++ ".mp4")⟩

/-! ## The fine-grained capture gate of the second variant -/

/-- Modelled from the spec: the Capture Session state of the second
capture-gating variant (spec section 4.1), whose source is not under
src/ — src/AutoScreenshots.py registers its timer with
`time_step = interval` and keeps none of these fields.  `running` is
true exactly in the `Armed` state; times are absolute seconds. -/
structure GateState where
  running : Bool
  next_capture_due : ℚ
  last_interaction_time : ℚ
  interval : ℚ
deriving DecidableEq, Repr

/-- Decision taken by the gate on one fine-grained timer tick: either no
Frame Sink call, or a capture attempt whose success flag is `ok`. -/
inductive GateAction where
  | noop : GateAction
  | capture (ok : Bool) : GateAction
deriving DecidableEq, Repr

/-- Modelled from the spec: one fine-grained timer tick of the second
variant's Capture Gate (spec section 4.1, rules 1-5; not under src/).
`renderActive` is whether a conflicting host-level render job is active;
`captureOk` is the Frame Sink's success/failure.  Rules, in order:
(1) render job active — no-op; (2) `now < next_capture_due` — no-op;
(3) `now - last_interaction_time < 0.3` and
`now < next_capture_due + interval*1.5` — no-op (deferral, capped);
(4) `now - last_interaction_time > interval*4` — no-op (user away);
(5) otherwise capture, and regardless of success or failure
`next_capture_due` is reset to `now + interval`. -/
def gateTick (s : GateState) (now : ℚ) (renderActive captureOk : Bool) :
    GateAction × GateState :=
  if s.running = false then (.noop, s)
  else if renderActive = true then (.noop, s)
  else if now < s.next_capture_due then (.noop, s)
  else if now - s.last_interaction_time < 3/10 ∧
      now < s.next_capture_due + s.interval * (3/2) then (.noop, s)
  else if now - s.last_interaction_time > s.interval * 4 then (.noop, s)
  else (.capture captureOk, { s with next_capture_due := now + s.interval })

/-- Modelled from the spec: the host's render-start notification of the
second variant (not under src/) forcibly transitions `Armed → Idle`. -/
def gateRenderStart (s : GateState) : GateState :=
  { s with running := false }

/-- Modelled from the spec: a non-timer input event of the second
variant (not under src/) updates `last_interaction_time = now` and
nothing else. -/
def gateInteraction (s : GateState) (now : ℚ) : GateState :=
  { s with last_interaction_time := now }

/-! ## Theorems -/

/-- C1: for every tick of the capture timer, if a host-level render job
is active at that tick, the tick performs no capture (no Frame Sink
call) and leaves the session state unchanged, regardless of all other
timing conditions; moreover after the host's render-start notification
the session is Idle and no later tick captures until re-armed, so a
capture never runs concurrently with a real render. -/
theorem render_active_blocks_capture (s : GateState) (now : ℚ)
    (captureOk : Bool) :
    gateTick s now true captureOk = (.noop, s) ∧
    (gateRenderStart s).running = false ∧
    ∀ (now₂ : ℚ) (ra ok : Bool),
      (gateTick (gateRenderStart s) now₂ ra ok).1 = .noop := by
  refine ⟨?_, rfl, ?_⟩
  · unfold gateTick
    rcases h : s.running with _ | _ <;> simp
  · intro now₂ ra ok
    unfold gateTick gateRenderStart
    simp

/-- C2: for every timer tick at time `now` while the session is running,
if `now < next_capture_due`, the tick performs no capture and changes no
state, whatever the render-job and capture oracles say. -/
theorem early_tick_no_capture (s : GateState) (now : ℚ)
    (h1 : s.running = true) (h2 : now < s.next_capture_due) :
    ∀ (ra ok : Bool), gateTick s now ra ok = (.noop, s) := by
  intro ra ok
  unfold gateTick
  rw [h1]
  rcases ra with _ | _ <;> simp [h2]

/-- Witness for C2 at a concrete state: interval 10, due at 10, tick at
time 5. -/
theorem early_tick_no_capture_witness :
    gateTick ⟨true, 10, 0, 10⟩ 5 false true = (.noop, ⟨true, 10, 0, 10⟩) :=
  early_tick_no_capture ⟨true, 10, 0, 10⟩ 5 rfl (by norm_num) false true

/-- C3: while the session is running, a tick at time `now` with
`now - last_interaction_time < 0.3` and
`now < next_capture_due + interval*1.5` performs no Frame Sink call (the
capture is deferred); and once `now ≥ next_capture_due + interval*1.5`
the capture proceeds even if the user is still interacting (deferral is
capped) — given no conflicting render job and the configured
`interval ≥ 1`. -/
theorem interaction_defer_capped (s : GateState) (now : ℚ) :
    (∀ (ra ok : Bool), s.running = true →
        now - s.last_interaction_time < 3/10 →
        now < s.next_capture_due + s.interval * (3/2) →
        (gateTick s now ra ok).1 = .noop) ∧
    (∀ ok : Bool, s.running = true → 1 ≤ s.interval →
        s.next_capture_due + s.interval * (3/2) ≤ now →
        now - s.last_interaction_time < 3/10 →
        (gateTick s now false ok).1 = .capture ok) := by
  constructor
  · intro ra ok h1 h2 h3
    rcases ra with _ | _
    · by_cases hd : now < s.next_capture_due
      · simp [gateTick, h1, hd]
      · simp [gateTick, h1, hd, h2, h3]
    · simp [gateTick, h1]
  · intro ok h1 hI h5 h6
    have hd : ¬ now < s.next_capture_due := by nlinarith
    have h3 : ¬ (now - s.last_interaction_time < 3/10 ∧
        now < s.next_capture_due + s.interval * (3/2)) := by
      rintro ⟨-, hc⟩
      linarith
    have h4 : ¬ (now - s.last_interaction_time > s.interval * 4) := by
      nlinarith
    simp [gateTick, h1, hd, h3, h4]

/-- Witness for C3: with interval 10 and due at 10, a tick at time 5
during interaction (last interaction 4.8 s ago... 0.2 s ago) defers;
with the same interval, a tick at time 25 = due + 15 captures although
the last interaction was 0.2 s ago. -/
theorem interaction_defer_capped_witness :
    (gateTick ⟨true, 10, 24/5, 10⟩ 5 false true).1 = .noop ∧
    (gateTick ⟨true, 10, 124/5, 10⟩ 25 false true).1 = .capture true :=
  ⟨(interaction_defer_capped ⟨true, 10, 24/5, 10⟩ 5).1 false true rfl
      (by norm_num) (by norm_num),
   (interaction_defer_capped ⟨true, 10, 124/5, 10⟩ 25).2 true rfl
      (by norm_num) (by norm_num) (by norm_num)⟩

/-- C4: on every tick on which a capture is attempted, the schedule
advances identically whether the capture succeeds or fails:
`next_capture_due` becomes exactly `now + interval`, the post-states for
success and failure coincide, and no tick strictly before
`now + interval` captures again (a failing capture is not retried on the
next fine-grained tick). -/
theorem capture_attempt_advances_schedule (s : GateState) (now : ℚ)
    (ra ok : Bool) (h : (gateTick s now ra ok).1 = .capture ok) :
    (gateTick s now ra ok).2.next_capture_due = now + s.interval ∧
    (gateTick s now ra true).2 = (gateTick s now ra false).2 ∧
    ∀ (now₂ : ℚ) (ra₂ ok₂ : Bool), now₂ < now + s.interval →
      (gateTick (gateTick s now ra ok).2 now₂ ra₂ ok₂).1 = .noop := by
  by_cases h0 : s.running = false
  · simp [gateTick, h0] at h
  by_cases h1 : ra = true
  · simp [gateTick, h0, h1] at h
  by_cases h2 : now < s.next_capture_due
  · simp [gateTick, h0, h1, h2] at h
  by_cases h3 : now - s.last_interaction_time < 3/10 ∧
      now < s.next_capture_due + s.interval * (3/2)
  · simp [gateTick, h0, h1, h2, h3] at h
  by_cases h4 : now - s.last_interaction_time > s.interval * 4
  · simp [gateTick, h0, h1, h2, h3, h4] at h
  have hr : s.running = true := by
    revert h0
    cases s.running <;> simp
  have hpost : (gateTick s now ra ok).2 =
      { s with next_capture_due := now + s.interval } := by
    simp [gateTick, h0, h1, h2, h3, h4]
  refine ⟨by rw [hpost], by simp [gateTick, h0, h1, h2, h3, h4], ?_⟩
  intro now₂ ra₂ ok₂ hlt
  rw [hpost]
  rcases ra₂ with _ | _
  · simp [gateTick, hr, hlt]
  · simp [gateTick, hr]

/-- Witness for C4: a due, non-interacting tick at time 0 with interval
10 captures (with a failing Frame Sink); the schedule moves to 10 and a
tick at time 5 does not retry. -/
theorem capture_attempt_advances_schedule_witness :
    (gateTick ⟨true, 0, -10, 10⟩ 0 false false).2.next_capture_due =
      0 + 10 ∧
    (gateTick (gateTick ⟨true, 0, -10, 10⟩ 0 false false).2 5 false
      true).1 = .noop :=
  ⟨(capture_attempt_advances_schedule ⟨true, 0, -10, 10⟩ 0 false false
      (by norm_num [gateTick])).1,
   (capture_attempt_advances_schedule ⟨true, 0, -10, 10⟩ 0 false false
      (by norm_num [gateTick])).2.2 5 false true (by norm_num)⟩

/-- C5: every invocation of `_capture_jpeg` and of
`_quick_viewport_fingerprint`, on every exit path (no viewport found,
render raising, file missing, read failing), leaves all eight
temporarily overwritten global render-configuration fields exactly as
they were before the call. -/
theorem render_settings_restored (rs : RenderSettings) (path : String)
    (width height quality : Nat)
    (viewportFound openglRaises fileExists tempExists readOk : Bool)
    (hash : Nat) :
    (capture_jpeg rs path width height quality viewportFound openglRaises
        fileExists).2 = rs ∧
    (quick_viewport_fingerprint rs viewportFound openglRaises tempExists
        readOk hash).2 = rs := by
  constructor
  · unfold capture_jpeg
    rcases viewportFound with _ | _ <;> rfl
  · unfold quick_viewport_fingerprint
    rcases viewportFound with _ | _ <;> rfl

/-- C6: `start()` aborts with a user-visible error and without any state
change when the .blend file has no persisted location, or when (the file
is saved, no session is running, and) the trial capture fails; and the
session enters the running state only when both precondition checks
pass. -/
theorem start_precondition_abort (s : AddonState) (hf t : Bool) :
    (hf = false → startExec s hf t = (.CANCELLED, true, s)) ∧
    (hf = true → s.running = false → t = false →
        startExec s hf t = (.CANCELLED, true, s)) ∧
    ((startExec s hf t).1 = .RUNNING_MODAL →
        hf = true ∧ t = true ∧ (startExec s hf t).2.2.running = true) := by
  refine ⟨?_, ?_, ?_⟩
  · intro h
    simp [startExec, h]
  · intro h1 h2 h3
    simp [startExec, h1, h2, h3]
  · intro h
    rcases hf with _ | _
    · simp [startExec] at h
    · rcases hr : s.running with _ | _
      · rcases t with _ | _
        · simp [startExec, hr] at h
        · exact ⟨rfl, rfl, by simp [startExec, hr]⟩
      · simp [startExec, hr] at h

/-- The empty file system, used as a fixture by several witnesses. -/
def fs0 : FS := fun _ => none

/-- Fixture: the state right after loading the add-on (nothing running,
no timer registered). -/
def idleState : AddonState :=
  { running := false, timer := none, registered := [], nextHandle := 0,
    lastFP := none, fs := fs0 }

/-- Fixture: a running session owning the registered timer `0`. -/
def runState : AddonState :=
  { running := true, timer := some 0, registered := [0], nextHandle := 1,
    lastFP := none, fs := fs0 }

/-- Witness for C6: from the idle state, an unsaved file aborts with an
error, a failing trial capture aborts with an error, and with both
checks passing the session is running. -/
theorem start_precondition_abort_witness :
    startExec idleState false true = (.CANCELLED, true, idleState) ∧
    startExec idleState true false = (.CANCELLED, true, idleState) ∧
    (startExec idleState true true).2.2.running = true :=
  ⟨(start_precondition_abort idleState false true).1 rfl,
   (start_precondition_abort idleState true false).2.1 rfl rfl rfl,
   ((start_precondition_abort idleState true true).2.2 rfl).2.2⟩

/-- C7: whenever the set of files matching the configured prefix and the
.jpg extension is empty, `_make_mp4` reports an error, returns failure
and produces no output file; and a missing output directory is one way
the matching set is empty. -/
theorem assembly_empty_fails (dirExists : Bool) (listing : List String)
    (pre stamp : String) :
    (gather dirExists listing pre = [] →
        make_mp4 dirExists listing pre stamp = ⟨false, true, none⟩) ∧
    (dirExists = false → gather dirExists listing pre = []) := by
  constructor
  · intro h
    simp [make_mp4, h]
  · intro h
    simp [gather, h]

/-- Witness for C7: assembling from a directory that does not exist (so
no file matches) fails with an error and no output. -/
theorem assembly_empty_fails_witness :
    make_mp4 false ["snap_1.jpg"] "snap" "20240101_000000" =
      ⟨false, true, none⟩ ∧
    gather false ["snap_1.jpg"] "snap" = [] :=
  ⟨(assembly_empty_fails false ["snap_1.jpg"] "snap" "20240101_000000").1
      ((assembly_empty_fails false ["snap_1.jpg"] "snap"
        "20240101_000000").2 rfl),
   (assembly_empty_fails false ["snap_1.jpg"] "snap"
      "20240101_000000").2 rfl⟩

/-- Helper: after `relocate`, whichever branch ran, the final path holds
the former content of the temp path and the temp path is gone. -/
lemma relocate_spec (fs : FS) (temp final : String) (b : Bool)
    (h : temp ≠ final) :
    relocate fs temp final b final = fs temp ∧
    relocate fs temp final b temp = none := by
  have h' : final ≠ temp := Ne.symm h
  rcases b with _ | _ <;> constructor <;> simp [relocate, fsWrite, h']

/-- C8: on every tick whose capture succeeds (and which is not skipped
as unchanged), the temporary image ends up at the final path and the
temp file is gone — and the `os.replace` path and the
copy-then-delete fallback produce the same file system, so this holds
whether or not the atomic rename succeeded. -/
theorem capture_relocated (skip : Bool) (s : AddonState) (o : TickOracle)
    (temp final : String) (c : Nat)
    (h1 : s.running = true) (h2 : o.isTimer = true)
    (h3 : o.captureResult = some c)
    (h4 : ¬ (skip = true ∧ o.fingerprint.isSome ∧
        o.fingerprint = s.lastFP))
    (h5 : temp ≠ final) :
    (modalTick skip s o temp final).2.1.fs final = some c ∧
    (modalTick skip s o temp final).2.1.fs temp = none ∧
    ∀ (fs : FS) (p : String),
      relocate fs temp final true p = relocate fs temp final false p := by
  have hW : fsWrite (if skip then { s with lastFP := o.fingerprint }
      else s).fs temp (some c) temp = some c := by
    simp [fsWrite]
  have hfs : (modalTick skip s o temp final).2.1.fs =
      relocate (fsWrite (if skip then { s with lastFP := o.fingerprint }
        else s).fs temp (some c)) temp final o.replaceOk := by
    rcases skip with _ | _
    · simp [modalTick, h1, h2, h3]
    · have h4' : ¬ (o.fingerprint.isSome ∧ o.fingerprint = s.lastFP) := by
        simpa using h4
      simp [modalTick, h1, h2, h3, h4']
  refine ⟨?_, ?_, fun fs p => rfl⟩
  · rw [hfs, (relocate_spec _ temp final o.replaceOk h5).1, hW]
  · rw [hfs, (relocate_spec _ temp final o.replaceOk h5).2]

/-- Fixture: a timer tick whose fingerprint capture failed and whose
full capture wrote image bytes `5`, with `os.replace` failing. -/
def tickCap5 : TickOracle :=
  { isTimer := true, fingerprint := none, captureResult := some 5,
    replaceOk := false }

/-- Witness for C8: a successful capture on a running session, with the
atomic rename failing, still lands the image at the final path. -/
theorem capture_relocated_witness :
    (modalTick false runState tickCap5 "tmp/a.jpg" "out/a.jpg").2.1.fs
        "out/a.jpg" = some 5 ∧
    (modalTick false runState tickCap5 "tmp/a.jpg" "out/a.jpg").2.1.fs
        "tmp/a.jpg" = none ∧
    relocate fs0 "tmp/a.jpg" "out/a.jpg" true "out/a.jpg" =
      relocate fs0 "tmp/a.jpg" "out/a.jpg" false "out/a.jpg" :=
  ⟨(capture_relocated false runState tickCap5 "tmp/a.jpg" "out/a.jpg" 5
      rfl rfl rfl (by simp) (by decide)).1,
   (capture_relocated false runState tickCap5 "tmp/a.jpg" "out/a.jpg" 5
      rfl rfl rfl (by simp) (by decide)).2.1,
   (capture_relocated false runState tickCap5 "tmp/a.jpg" "out/a.jpg" 5
      rfl rfl rfl (by simp) (by decide)).2.2 fs0 "out/a.jpg"⟩

/-- Session invariant: a running session owns exactly the one timer it
registered, and with no session running the add-on has no registered
timer. -/
def SessionInv (s : AddonState) : Prop :=
  (s.running = true → ∃ h, s.timer = some h ∧ s.registered = [h]) ∧
  (s.running = false → s.registered = [])

/-- Helper: a modal tick never touches `_RUNNING`, `_TIMER` or the
window manager's timer registrations. -/
lemma modalTick_frame (skip : Bool) (s : AddonState) (o : TickOracle)
    (temp final : String) :
    (modalTick skip s o temp final).2.1.running = s.running ∧
    (modalTick skip s o temp final).2.1.timer = s.timer ∧
    (modalTick skip s o temp final).2.1.registered = s.registered := by
  rcases hc : o.captureResult with _ | c <;> rcases skip with _ | _ <;>
    simp only [modalTick, hc] <;> split_ifs <;> simp

/-- C9: at most one capture session is active process-wide: under the
session invariant at most one timer is registered; starting while a
session runs is rejected with no state change; and the invariant is
preserved by `start`, by `stop`, and by every modal tick. -/
theorem at_most_one_session (s : AddonState) (hf t skip : Bool)
    (o : TickOracle) (temp final : String) :
    (SessionInv s → s.registered.length ≤ 1) ∧
    (s.running = true → (startExec s hf t).1 = .CANCELLED ∧
        (startExec s hf t).2.2 = s) ∧
    (SessionInv s → SessionInv (startExec s hf t).2.2) ∧
    (SessionInv s → SessionInv (stopExec s).2) ∧
    (SessionInv s → SessionInv (modalTick skip s o temp final).2.1) := by
  refine ⟨?_, ?_, ?_, ?_, ?_⟩
  · rintro ⟨hrun, hidle⟩
    rcases hr : s.running with _ | _
    · rw [hidle hr]
      simp
    · obtain ⟨h, -, hreg⟩ := hrun hr
      rw [hreg]
      simp
  · intro hr
    rcases hf with _ | _
    · exact ⟨by simp [startExec], by simp [startExec]⟩
    · exact ⟨by simp [startExec, hr], by simp [startExec, hr]⟩
  · rintro ⟨hrun, hidle⟩
    rcases hf with _ | _
    · exact ⟨hrun, hidle⟩
    · rcases hr : s.running with _ | _
      · rcases t with _ | _
        · simpa [startExec, hr] using ⟨hrun, hidle⟩
        · refine ⟨fun _ => ⟨s.nextHandle, by simp [startExec, hr], ?_⟩,
            fun hcontra => by simp [startExec, hr] at hcontra⟩
          simp [startExec, hr, hidle hr]
      · simpa [startExec, hr] using ⟨hrun, hidle⟩
  · rintro ⟨hrun, hidle⟩
    refine ⟨fun hcontra => by simp [stopExec] at hcontra, fun _ => ?_⟩
    rcases hr : s.running with _ | _
    · rcases ht : s.timer with _ | h <;> simp [stopExec, ht, hidle hr]
    · obtain ⟨h, ht, hreg⟩ := hrun hr
      simp [stopExec, ht, hreg]
  · rintro ⟨hrun, hidle⟩
    obtain ⟨hfr, hft, hfg⟩ := modalTick_frame skip s o temp final
    constructor
    · intro hr
      obtain ⟨h, ht, hreg⟩ := hrun (hfr ▸ hr)
      exact ⟨h, hft.trans ht, hfg.trans hreg⟩
    · intro hr
      exact hfg.trans (hidle (hfr ▸ hr))

/-- Witness for C9: a running session with its one timer satisfies the
invariant, has at most one registered timer, rejects a second start
unchanged, and keeps the invariant across stop. -/
theorem at_most_one_session_witness :
    runState.registered.length ≤ 1 ∧
    (startExec runState true true).1 = .CANCELLED ∧
    (startExec runState true true).2.2 = runState ∧
    SessionInv (stopExec runState).2 :=
  ⟨(at_most_one_session runState true true false tickCap5 "t" "f").1
      ⟨fun _ => ⟨0, rfl, rfl⟩, fun h => by simp [runState] at h⟩,
   ((at_most_one_session runState true true false tickCap5 "t" "f").2.1
      rfl).1,
   ((at_most_one_session runState true true false tickCap5 "t" "f").2.1
      rfl).2,
   (at_most_one_session runState true true false tickCap5 "t" "f").2.2.2.1
      ⟨fun _ => ⟨0, rfl, rfl⟩, fun h => by simp [runState] at h⟩⟩

/-- C10: with skip-unchanged enabled, a timer tick of a running session
skips the full-resolution capture exactly when the fingerprint capture
succeeds and its hash equals the stored one; when the fingerprint
capture fails, the full capture still proceeds and the stored
fingerprint becomes `None`, so the immediately following timer tick can
never be skipped. -/
theorem skip_unchanged_semantics (s : AddonState) (o : TickOracle)
    (temp final : String) (h1 : s.running = true) (h2 : o.isTimer = true) :
    ((modalTick true s o temp final).2.2 = false ↔
        (o.fingerprint.isSome ∧ o.fingerprint = s.lastFP)) ∧
    (o.fingerprint = none →
        (modalTick true s o temp final).2.2 = true ∧
        (modalTick true s o temp final).2.1.lastFP = none) ∧
    (o.fingerprint = none →
        ∀ (o₂ : TickOracle) (temp₂ final₂ : String), o₂.isTimer = true →
          (modalTick true (modalTick true s o temp final).2.1 o₂ temp₂
              final₂).2.2 = true) := by
  by_cases hsk : o.fingerprint.isSome = true ∧ o.fingerprint = s.lastFP
  · have hm : modalTick true s o temp final = (.PASS_THROUGH, s, false) := by
      have h1' : s.lastFP.isSome = true := hsk.2 ▸ hsk.1
      simp [modalTick, h1, h2, hsk.2, h1']
    refine ⟨by rw [hm]; exact iff_of_true rfl hsk, ?_, ?_⟩
    · intro hfp
      have := hsk.1
      rw [hfp] at this
      simp at this
    · intro hfp
      have := hsk.1
      rw [hfp] at this
      simp at this
  · have hm1 : (modalTick true s o temp final).2.2 = true ∧
        (modalTick true s o temp final).2.1.lastFP = o.fingerprint ∧
        (modalTick true s o temp final).2.1.running = true := by
      rcases hc : o.captureResult with _ | c <;>
        simp [modalTick, h1, h2, hsk, hc]
    refine ⟨by rw [hm1.1]; simp [hsk], fun hfp => ⟨hm1.1, hm1.2.1.trans hfp⟩,
      ?_⟩
    intro hfp o₂ temp₂ final₂ h2T
    set s₂ := (modalTick true s o temp final).2.1 with hs₂
    have hrun₂ : s₂.running = true := hm1.2.2
    have hlast : s₂.lastFP = none := hm1.2.1.trans hfp
    have hsk₂ : ¬ (o₂.fingerprint.isSome = true ∧
        o₂.fingerprint = s₂.lastFP) := by
      rintro ⟨hs2, he2⟩
      rw [hlast] at he2
      rw [he2] at hs2
      simp at hs2
    rcases hc₂ : o₂.captureResult with _ | c₂ <;>
      simp [modalTick, hrun₂, h2T, hsk₂, hc₂]

/-- Witness for C10: a tick whose fingerprint capture fails still
performs the full capture, clears the stored fingerprint, and the
following tick performs the full capture as well. -/
theorem skip_unchanged_semantics_witness :
    (modalTick true runState tickCap5 "t1.jpg" "f1.jpg").2.2 = true ∧
    (modalTick true runState tickCap5 "t1.jpg" "f1.jpg").2.1.lastFP =
      none ∧
    (modalTick true (modalTick true runState tickCap5 "t1.jpg"
        "f1.jpg").2.1 tickCap5 "t2.jpg" "f2.jpg").2.2 = true :=
  ⟨((skip_unchanged_semantics runState tickCap5 "t1.jpg" "f1.jpg" rfl
      rfl).2.1 rfl).1,
   ((skip_unchanged_semantics runState tickCap5 "t1.jpg" "f1.jpg" rfl
      rfl).2.1 rfl).2,
   (skip_unchanged_semantics runState tickCap5 "t1.jpg" "f1.jpg" rfl
      rfl).2.2 rfl tickCap5 "t2.jpg" "f2.jpg" rfl⟩

end AutoScreenshots
